import Mathlib

/-!
Verification development for the Aegis Flow / Central Imaging Control frontend
(React dashboard for hospital patient tracking).  The definitions below are a
shallow embedding of the JavaScript sources under `frontend/src`:

* `data/mockData.js`     — the hand-authored fallback data set;
* `App.jsx`              — live-vs-fallback data selection;
* `hooks/useAegisData.js`— the snapshot fetcher, connectivity flag and the
                           mutation operations;
* `components/Sidebar.jsx`, `PatientList.jsx`, `FloorMap.jsx`,
  `CriticalAlert.jsx`    — pure derivations over a snapshot.

Machine numerics are modelled with `Nat`/`Int` (all the scores and counts in
scope are small non-negative integers; floating-point vitals readings are not
used by any derivation studied here and are omitted from the record types).
Fallible network reads are modelled as `Except String` values handed to the
fetch function, and JavaScript truthiness of the nullable `patient_id` string
is made explicit.
-/

/-- A patient record, as served by the backend and as hand-authored in
`mockData.js` (the float-valued `vitals` sub-record is not consumed by any
derivation formalised here and is omitted). -/
structure Patient where
  patient_id : String
  name : String
  age : Nat
  chief_complaint : String
  news2_score : Nat
  risk_level : String
  status_color : String
deriving DecidableEq

/-- A 2-D map coordinate. -/
structure Position where
  x : Int
  y : Int
deriving DecidableEq

/-- A tracked person after `useAegisData.js` normalisation: `position` is the
canonical coordinate attribute; `patient_id` is the nullable enrollment link. -/
structure TrackedPerson where
  track_id : String
  patient_id : Option String
  position : Position
  person_type : String
deriving DecidableEq

/-- The aggregate statistics object (`/stats` response shape, also the shape of
`mockStats` and of the `useState` initialiser in `useAegisData.js`). -/
structure Stats where
  total_tracked : Nat
  tagged_patients : Nat
  untagged : Nat
  staff_count : Nat
  critical_located : Nat
  urgent_located : Nat
deriving DecidableEq

/-- The fallback patients of `mockData.js`, field for field. -/
def mockPatients : List Patient :=
  [ { patient_id := "P-1001", name := "John Smith", age := 67,
      chief_complaint := "Chest pain, shortness of breath",
      news2_score := 9, risk_level := "high", status_color := "#dc3545" },
    { patient_id := "P-1002", name := "Mary Johnson", age := 45,
      chief_complaint := "Severe abdominal pain",
      news2_score := 6, risk_level := "medium", status_color := "#ffc107" },
    { patient_id := "P-1003", name := "Robert Williams", age := 72,
      chief_complaint := "Confusion, fever",
      news2_score := 7, risk_level := "high", status_color := "#dc3545" },
    { patient_id := "P-1004", name := "Sarah Davis", age := 34,
      chief_complaint := "Minor laceration",
      news2_score := 1, risk_level := "low", status_color := "#28a745" },
    { patient_id := "P-1005", name := "Michael Brown", age := 58,
      chief_complaint := "Diabetic emergency",
      news2_score := 5, risk_level := "medium", status_color := "#ffc107" },
    { patient_id := "P-1006", name := "Emma Wilson", age := 81,
      chief_complaint := "Fall, hip pain",
      news2_score := 8, risk_level := "high", status_color := "#dc3545" } ]

/-- The fallback tracked people of `mockData.js`. -/
def mockTrackedPeople : List TrackedPerson :=
  [ { track_id := "T-A1B2", patient_id := some "P-1001",
      position := { x := 180, y := 280 }, person_type := "patient" },
    { track_id := "T-C3D4", patient_id := some "P-1002",
      position := { x := 420, y := 180 }, person_type := "patient" },
    { track_id := "T-E5F6", patient_id := some "P-1006",
      position := { x := 620, y := 320 }, person_type := "patient" },
    { track_id := "T-G7H8", patient_id := none,
      position := { x := 300, y := 400 }, person_type := "staff" },
    { track_id := "T-I9J0", patient_id := none,
      position := { x := 520, y := 250 }, person_type := "unknown" } ]

/-- The hand-authored fallback statistics of `mockData.js`. -/
def mockStats : Stats :=
  { total_tracked := 5, tagged_patients := 3, untagged := 2,
    staff_count := 1, critical_located := 2, urgent_located := 1 }

/-- Data-source selection for the patients list, from `App.jsx`:
`useMockData || !isConnected ? mockPatients : apiPatients`. -/
def selectPatients (useMockData isConnected : Bool) (apiPatients : List Patient) :
    List Patient :=
  if useMockData || !isConnected then mockPatients else apiPatients

/-- Data-source selection for the tracked people, from `App.jsx`. -/
def selectTrackedPeople (useMockData isConnected : Bool)
    (apiTracked : List TrackedPerson) : List TrackedPerson :=
  if useMockData || !isConnected then mockTrackedPeople else apiTracked

/-- Data-source selection for the statistics, from `App.jsx`. -/
def selectStats (useMockData isConnected : Bool) (apiStats : Stats) : Stats :=
  if useMockData || !isConnected then mockStats else apiStats

/-- C1: data-source selection is a pure function of the connectivity indicator
and the simulation (mock-data) flag.  For every one of the four combinations,
all three consumers are shown the fallback set (`mockPatients`,
`mockTrackedPeople`, `mockStats`) exactly when the flag is set or connectivity
is not Live, and the gateway-fetched data exactly when connectivity is Live and
the flag is unset; one and the same condition governs all three. -/
theorem c1_fallback_selection (useMockData isConnected : Bool)
    (apiPatients : List Patient) (apiTracked : List TrackedPerson)
    (apiStats : Stats) :
    (selectPatients useMockData isConnected apiPatients,
     selectTrackedPeople useMockData isConnected apiTracked,
     selectStats useMockData isConnected apiStats)
      = if useMockData || !isConnected
          then (mockPatients, mockTrackedPeople, mockStats)
          else (apiPatients, apiTracked, apiStats) := by
  cases useMockData <;> cases isConnected <;>
    simp [selectPatients, selectTrackedPeople, selectStats]

/-- JavaScript truthiness of the nullable `patient_id` field: `null` and the
empty string are falsy, every other string is truthy.  `Sidebar.jsx` and
`FloorMap.jsx` branch on `t.patient_id` / `!t.patient_id` directly. -/
def truthyId : Option String → Bool
  | none => false
  | some s => s != ""

/-- The unidentified people, from `Sidebar.jsx`:
`trackedPeople.filter((t) => !t.patient_id && t.person_type !== "staff")`. -/
def unidentified (trackedPeople : List TrackedPerson) : List TrackedPerson :=
  trackedPeople.filter (fun t => !truthyId t.patient_id && t.person_type != "staff")

/-- The enrolled patient ids, from `Sidebar.jsx`:
`trackedPeople.filter((t) => t.patient_id).map((t) => t.patient_id)`. -/
def enrolledIds (trackedPeople : List TrackedPerson) : List (Option String) :=
  (trackedPeople.filter (fun t => truthyId t.patient_id)).map (fun t => t.patient_id)

/-- Modelled from the spec: the aggregate staff count is computed by the
backend (`aegis_flow`, not part of the frontend sources); the specification
defines it as the count of entities with `entity_kind = staff`, with the
tie-break that enrollment takes precedence over kind-based classification, so
an enrolled staff entity counts only as enrolled. -/
def staffBucketCount (trackedPeople : List TrackedPerson) : Nat :=
  (trackedPeople.filter
    (fun t => !truthyId t.patient_id && t.person_type == "staff")).length

/-- C2 (amended): for counts derived from the tracked-entity list by the
stated bucket rules — enrolled = truthy linked id; unidentified = no linked id
and kind not staff; staff = kind staff and (by the enrolled-precedence
tie-break) no linked id — the three buckets partition the list, so
enrolled + unidentified + staff equals the total tracked for every snapshot. -/
theorem c2_derived_identity (trackedPeople : List TrackedPerson) :
    (enrolledIds trackedPeople).length + (unidentified trackedPeople).length
      + staffBucketCount trackedPeople = trackedPeople.length := by
  induction trackedPeople with
  | nil => rfl
  | cons t ts ih =>
    simp only [enrolledIds, unidentified, staffBucketCount, List.filter_cons,
      List.length_map] at *
    cases h1 : truthyId t.patient_id <;> by_cases h2 : t.person_type = "staff" <;>
      simp [h1, h2, List.length_cons] <;> omega

/-- C2 counterexample: the hand-authored fallback statistics of `mockData.js`
violate the aggregate identity: tagged 3 + untagged 2 + staff 1 = 6, yet the
total tracked is 5 (its `untagged` figure counts every entity with a null
linked id, staff included, so the staff member is double-counted). -/
theorem c2_counterexample :
    mockStats.tagged_patients + mockStats.untagged + mockStats.staff_count
        ≠ mockStats.total_tracked
      ∧ (enrolledIds mockTrackedPeople).length
          + (unidentified mockTrackedPeople).length
          + staffBucketCount mockTrackedPeople = mockStats.total_tracked := by
  constructor
  · decide
  · decide

/-- The high-risk bucket of `PatientList.jsx`:
`patients.filter((p) => p.risk_level === "high")` — note that it reads the
stored `risk_level` field of the record. -/
def byRiskHigh (patients : List Patient) : List Patient :=
  patients.filter (fun p => p.risk_level == "high")

/-- The medium-risk bucket of `PatientList.jsx`. -/
def byRiskMedium (patients : List Patient) : List Patient :=
  patients.filter (fun p => p.risk_level == "medium")

/-- The low-risk bucket of `PatientList.jsx`. -/
def byRiskLow (patients : List Patient) : List Patient :=
  patients.filter (fun p => p.risk_level == "low")

/-- Subject resolution from `FloorMap.jsx`: `null` for an un-enrolled entity,
otherwise the first patient whose id matches the entity's link (which is
`undefined`, modelled `none`, when the link dangles). -/
def getPatientInfo (patients : List Patient) (tracked : TrackedPerson) :
    Option Patient :=
  if !truthyId tracked.patient_id then none
  else patients.find? (fun p => some p.patient_id == tracked.patient_id)

/-- Dot colour from `FloorMap.jsx`: the resolved patient's status colour, else
blue for staff, else the grey default. -/
def getDotColor (patients : List Patient) (tracked : TrackedPerson) : String :=
  match getPatientInfo patients tracked with
  | some patient => patient.status_color
  | none => if tracked.person_type == "staff" then "#3b82f6" else "#64748b"

/-- Dot size from `FloorMap.jsx`: 18 when the resolved patient's stored
`risk_level` is high, 15 when medium, 12 otherwise (also 12 when unresolved). -/
def getDotSize (patients : List Patient) (tracked : TrackedPerson) : Nat :=
  match getPatientInfo patients tracked with
  | some patient =>
      if patient.risk_level == "high" then 18
      else if patient.risk_level == "medium" then 15
      else 12
  | none => 12

/-- Modelled from the spec: the risk-band derivation rule lives in the backend
(`aegis_flow`, not among the frontend sources); the specification states
`s ≥ 7 → high`, `5 ≤ s ≤ 6 → medium`, `s ≤ 4 → low`. -/
def bandOf (s : Nat) : String :=
  if 7 ≤ s then "high" else if 5 ≤ s then "medium" else "low"

/-- Severity order on band names, used to state monotonicity of the banding. -/
def bandRank : String → Nat
  | "medium" => 1
  | "high" => 2
  | _ => 0

/-- A patient record whose stored `risk_level` disagrees with the band its
`news2_score` would yield — nothing in the frontend prevents or repairs this. -/
def divergentPatient : Patient :=
  { patient_id := "P-2001", name := "Divergent Band", age := 50,
    chief_complaint := "test", news2_score := 9, risk_level := "low",
    status_color := "#28a745" }

/-- A tracked entity enrolled to `divergentPatient`. -/
def divergentTracked : TrackedPerson :=
  { track_id := "T-X9Y8", patient_id := some "P-2001",
    position := { x := 10, y := 10 }, person_type := "patient" }

/-- C3 counterexample: the display band is read from the stored `risk_level`
field, not recomputed from the score.  A record with score 9 but stored band
"low" is placed in the low bucket and drawn at the default dot size 12, even
though recomputation from the score yields "high" (which would give size 18). -/
theorem c3_counterexample :
    bandOf divergentPatient.news2_score = "high"
      ∧ byRiskHigh [divergentPatient] = []
      ∧ byRiskLow [divergentPatient] = [divergentPatient]
      ∧ getDotSize [divergentPatient] divergentTracked = 12 := by
  refine ⟨by decide, by decide, by decide, by decide⟩

/-- Changing every score in a patient list leaves `find?` by id unchanged up to
the same score change (the lookup never inspects `news2_score`). -/
lemma find?_id_score_map (patients : List Patient) (n : Nat) (q : Option String) :
    (patients.map (fun p => { p with news2_score := n })).find?
        (fun p => some p.patient_id == q)
      = (patients.find? (fun p => some p.patient_id == q)).map
          (fun p => { p with news2_score := n }) := by
  induction patients with
  | nil => rfl
  | cons p ps ih =>
    simp only [List.map_cons, List.find?_cons]
    by_cases h : (some p.patient_id == q) = true
    · simp [h]
    · simp only [Bool.not_eq_true] at h
      simp [h, ih]

/-- Changing every score commutes with the `risk_level` filters (the bucket
predicate never inspects `news2_score`). -/
lemma filter_level_score_map (patients : List Patient) (n : Nat) (lvl : String) :
    (patients.map (fun p => { p with news2_score := n })).filter
        (fun p => p.risk_level == lvl)
      = (patients.filter (fun p => p.risk_level == lvl)).map
          (fun p => { p with news2_score := n }) := by
  induction patients with
  | nil => rfl
  | cons p ps ih =>
    simp only [List.map_cons, List.filter_cons]
    by_cases h : (p.risk_level == lvl) = true
    · simp only [h, if_true, List.map_cons, ih]
    · simp only [h, Bool.false_eq_true, if_false, ih]

/-- C3 (amended): the band used for display is read from the snapshot's stored
`risk_level` field, not recomputed from the score — mutating every
`news2_score` changes neither the dot sizes nor the risk buckets.  The banding
rule itself (modelled from the spec, computed upstream) maps every score to
exactly one of low/medium/high and is monotonic non-decreasing. -/
theorem c3_amended :
    (∀ s : Nat, bandOf s = "low" ∨ bandOf s = "medium" ∨ bandOf s = "high")
      ∧ (∀ s t : Nat, s ≤ t → bandRank (bandOf s) ≤ bandRank (bandOf t))
      ∧ (∀ (patients : List Patient) (n : Nat) (tracked : TrackedPerson),
          getDotSize (patients.map (fun p => { p with news2_score := n })) tracked
            = getDotSize patients tracked)
      ∧ (∀ (patients : List Patient) (n : Nat),
          byRiskHigh (patients.map (fun p => { p with news2_score := n }))
            = (byRiskHigh patients).map (fun p => { p with news2_score := n })) := by
  refine ⟨?_, ?_, ?_, ?_⟩
  · intro s
    unfold bandOf
    split_ifs <;> simp
  · intro s t hst
    unfold bandOf
    split_ifs <;> first | decide | (exfalso; omega)
  · intro patients n tracked
    unfold getDotSize getPatientInfo
    by_cases h : truthyId tracked.patient_id = true
    · simp only [h, Bool.not_true, Bool.false_eq_true, if_false,
        find?_id_score_map]
      cases patients.find? (fun p => some p.patient_id == tracked.patient_id) <;> rfl
    · simp only [Bool.not_eq_true] at h
      simp [h]
  · intro patients n
    unfold byRiskHigh
    exact filter_level_score_map patients n "high"

/-- C3 witness: the amended theorem applied at the concrete scores 3 ≤ 7. -/
theorem c3_amended_witness :
    3 ≤ 7 ∧ bandRank (bandOf 3) ≤ bandRank (bandOf 7) :=
  ⟨by decide, c3_amended.2.1 3 7 (by decide)⟩

/-- A named zone rectangle of the backend floor plan (`/layout` response),
with the raw field names consumed by `FloorMap.jsx`. -/
structure FloorPlanZone where
  camera_id : String
  camera_name : String
  map_x : Int
  map_y : Int
  map_width : Int
  map_height : Int
deriving DecidableEq

/-- The spatial layout (`/layout` response shape used by `FloorMap.jsx`). -/
structure FloorPlan where
  width : Nat
  height : Nat
  zones : List FloorPlanZone
  image_base64 : Option String
deriving DecidableEq

/-- A tracked record as served by `/tracked`, before normalisation: the
coordinate still sits in the upstream `map_position` field. -/
structure RawTracked where
  track_id : String
  patient_id : Option String
  map_position : Position
  person_type : String
deriving DecidableEq

/-- The normalisation step of `useAegisData.js`: the upstream `map_position`
field is renamed into the canonical `position` attribute. -/
def transformTracked (t : RawTracked) : TrackedPerson :=
  { track_id := t.track_id, patient_id := t.patient_id,
    position := t.map_position, person_type := t.person_type }

/-- The state held by the `useAegisData` hook: the four snapshot fields plus
the loading, error and connectivity indicators. -/
structure HookState where
  patients : List Patient
  trackedPeople : List TrackedPerson
  stats : Stats
  floorPlan : Option FloorPlan
  loading : Bool
  error : Option String
  isConnected : Bool
deriving DecidableEq

/-- The `useState` initialiser for the statistics in `useAegisData.js`. -/
def initialStats : Stats :=
  { total_tracked := 0, tagged_patients := 0, untagged := 0,
    staff_count := 0, critical_located := 0, urgent_located := 0 }

/-- The initial hook state (`useState` initialisers of `useAegisData.js`). -/
def initialHookState : HookState :=
  { patients := [], trackedPeople := [], stats := initialStats,
    floorPlan := none, loading := true, error := none, isConnected := false }

/-- Success indicator for a modelled read outcome. -/
def exceptOk {α : Type} : Except String α → Bool
  | .ok _ => true
  | .error _ => false

/-- The error surfaced by the combined read: the first failing mandatory read
in the order the reads are listed (modelling the single rejection that
`Promise.all` surfaces). -/
def firstError {α β γ : Type} (pRes : Except String α) (tRes : Except String β)
    (stRes : Except String γ) : String :=
  match pRes with
  | .error e => e
  | .ok _ =>
    match tRes with
    | .error e => e
    | .ok _ =>
      match stRes with
      | .error e => e
      | .ok _ => ""

/-- The snapshot fetcher of `useAegisData.js`, as a function of the prior hook
state and of the outcomes of the four concurrent reads.  The floor-plan read
is pre-caught (`.catch(() => null)`), so only its success value reaches the
combination; any failure among the three mandatory reads sends the whole call
to the catch branch, which records the error, drops the connected flag and
nulls the floor plan.  The success branch publishes all four fields (tracked
records normalised), clears the error and sets the connected flag.  Both
branches end loading. -/
def fetchData (s : HookState) (pRes : Except String (List Patient))
    (tRes : Except String (List RawTracked)) (stRes : Except String Stats)
    (fpRes : Except String FloorPlan) : HookState :=
  match pRes, tRes, stRes with
  | .ok ps, .ok ts, .ok st =>
      { s with patients := ps,
               trackedPeople := ts.map transformTracked,
               stats := st,
               floorPlan := fpRes.toOption,
               error := none,
               isConnected := true,
               loading := false }
  | _, _, _ =>
      { s with error := some (firstError pRes tRes stRes),
               isConnected := false,
               floorPlan := none,
               loading := false }

/-- C4: a failure of any mandatory read makes the whole fetch one failure and
drives connectivity Offline; in particular a failing stats read alone
suffices, even though the subjects and tracked reads succeeded. -/
theorem c4_mandatory_failure (s : HookState) (pRes : Except String (List Patient))
    (tRes : Except String (List RawTracked)) (stRes : Except String Stats)
    (fpRes : Except String FloorPlan)
    (h : (exceptOk pRes && exceptOk tRes && exceptOk stRes) = false) :
    (fetchData s pRes tRes stRes fpRes).isConnected = false
      ∧ (fetchData s pRes tRes stRes fpRes).error
          = some (firstError pRes tRes stRes)
      ∧ ∀ (ps : List Patient) (ts : List RawTracked) (e : String),
          fetchData s (.ok ps) (.ok ts) (.error e) fpRes
            = { s with error := some e, isConnected := false,
                       floorPlan := none, loading := false } := by
  refine ⟨?_, ?_, ?_⟩
  · cases pRes <;> cases tRes <;> cases stRes <;>
      simp_all [fetchData, exceptOk]
  · cases pRes <;> cases tRes <;> cases stRes <;>
      simp_all [fetchData, exceptOk]
  · intro ps ts e
    rfl

/-- A concrete floor plan, used for witnesses and counterexamples below. -/
def samplePlan : FloorPlan :=
  { width := 800, height := 600, zones := [], image_base64 := none }

/-- C4 witness: the theorem applied at a concrete failing stats read. -/
theorem c4_mandatory_failure_witness :
    (exceptOk (Except.ok mockPatients) && exceptOk (Except.ok ([] : List RawTracked))
        && exceptOk (Except.error (α := Stats) "API Error: 500")) = false
      ∧ (fetchData initialHookState (.ok mockPatients) (.ok [])
          (.error "API Error: 500") (.ok samplePlan)).isConnected = false :=
  ⟨by decide,
   (c4_mandatory_failure initialHookState (.ok mockPatients) (.ok [])
      (.error "API Error: 500") (.ok samplePlan) (by decide)).1⟩

/-- C5: a failure of only the optional floor-plan read is swallowed: the fetch
succeeds, connectivity becomes Live, the floor-plan field is absent, and the
subjects and tracked lists of the same tick are published as fetched. -/
theorem c5_optional_layout (s : HookState) (ps : List Patient)
    (ts : List RawTracked) (st : Stats) (e : String) :
    fetchData s (.ok ps) (.ok ts) (.ok st) (.error e)
      = { s with patients := ps,
                 trackedPeople := ts.map transformTracked,
                 stats := st,
                 floorPlan := none,
                 error := none,
                 isConnected := true,
                 loading := false } := rfl

/-- A hook state as it stands after a successful poll: a cached snapshot with
a present floor plan, Live connectivity and no error. -/
def cachedHookState : HookState :=
  { patients := mockPatients, trackedPeople := mockTrackedPeople,
    stats := mockStats, floorPlan := some samplePlan,
    loading := false, error := none, isConnected := true }

/-- C7 counterexample: on a failing fetch the cached floor-plan field does not
retain its prior value — the catch branch resets it to absent (the code calls
`setFloorPlan(null)`), even though the claim says the failure changes only the
connectivity state and the last-error message. -/
theorem c7_counterexample :
    cachedHookState.floorPlan = some samplePlan
      ∧ (fetchData cachedHookState (.ok mockPatients) (.ok [])
          (.error "API Error: 500") (.ok samplePlan)).floorPlan = none := by
  exact ⟨rfl, rfl⟩

/-- C7 (amended): when a fetch fails, the cached subjects, tracked entities
and statistics retain their prior values while consumers are switched to the
fallback set; but the floor-plan field is reset to absent rather than
retained, and the connectivity flag, last error and loading flag are
updated. -/
theorem c7_amended (s : HookState) (pRes : Except String (List Patient))
    (tRes : Except String (List RawTracked)) (stRes : Except String Stats)
    (fpRes : Except String FloorPlan)
    (h : (exceptOk pRes && exceptOk tRes && exceptOk stRes) = false) :
    (fetchData s pRes tRes stRes fpRes).patients = s.patients
      ∧ (fetchData s pRes tRes stRes fpRes).trackedPeople = s.trackedPeople
      ∧ (fetchData s pRes tRes stRes fpRes).stats = s.stats
      ∧ (fetchData s pRes tRes stRes fpRes).floorPlan = none
      ∧ (fetchData s pRes tRes stRes fpRes).isConnected = false
      ∧ (fetchData s pRes tRes stRes fpRes).error
          = some (firstError pRes tRes stRes)
      ∧ (fetchData s pRes tRes stRes fpRes).loading = false := by
  cases pRes <;> cases tRes <;> cases stRes <;>
    simp_all [fetchData, exceptOk]

/-- C7 witness: the amended theorem applied at a concrete failing poll over
the cached state. -/
theorem c7_amended_witness :
    (exceptOk (Except.error (α := List Patient) "API Error: 500")
        && exceptOk (Except.ok ([] : List RawTracked))
        && exceptOk (Except.ok mockStats)) = false
      ∧ (fetchData cachedHookState (.error "API Error: 500") (.ok [])
          (.ok mockStats) (.ok samplePlan)).patients = cachedHookState.patients :=
  ⟨by decide,
   (c7_amended cachedHookState (.error "API Error: 500") (.ok [])
      (.ok mockStats) (.ok samplePlan) (by decide)).1⟩

/-- A gateway interaction performed by one of the hook's action functions:
either one of the five mutation endpoints of `api/client.js`, or the full
snapshot re-fetch (`fetchData`). -/
inductive GatewayCall where
  | apiEnroll (trackId patientId : String)
  | apiUpdateVitals (patientId direction : String)
  | apiAddPerson (cameraId personType : String)
  | apiDemoSetup
  | apiDemoClear
  | fetchAll
deriving DecidableEq

/-- The `enroll` action of `useAegisData.js`, as the pair (returned result,
sequence of gateway interactions in order).  The body awaits the mutation and,
on success only, awaits the re-fetch and returns true; a rejected mutation
goes to the catch branch, which returns false without re-fetching.  No
validation of the two ids happens before the network call. -/
def enroll (trackId patientId : String) (mutRes : Except String Unit) :
    Bool × List GatewayCall :=
  match mutRes with
  | .ok _ => (true, [.apiEnroll trackId patientId, .fetchAll])
  | .error _ => (false, [.apiEnroll trackId patientId])

/-- The `updateVitals` action of `useAegisData.js` (same try/catch shape). -/
def updateVitals (patientId direction : String) (mutRes : Except String Unit) :
    Bool × List GatewayCall :=
  match mutRes with
  | .ok _ => (true, [.apiUpdateVitals patientId direction, .fetchAll])
  | .error _ => (false, [.apiUpdateVitals patientId direction])

/-- The `addPerson` action of `useAegisData.js` (same try/catch shape). -/
def addPerson (cameraId personType : String) (mutRes : Except String Unit) :
    Bool × List GatewayCall :=
  match mutRes with
  | .ok _ => (true, [.apiAddPerson cameraId personType, .fetchAll])
  | .error _ => (false, [.apiAddPerson cameraId personType])

/-- The `setupDemo` action of `useAegisData.js` (same try/catch shape). -/
def setupDemo (mutRes : Except String Unit) : Bool × List GatewayCall :=
  match mutRes with
  | .ok _ => (true, [.apiDemoSetup, .fetchAll])
  | .error _ => (false, [.apiDemoSetup])

/-- The `clearAll` action of `useAegisData.js` (same try/catch shape). -/
def clearAll (mutRes : Except String Unit) : Bool × List GatewayCall :=
  match mutRes with
  | .ok _ => (true, [.apiDemoClear, .fetchAll])
  | .error _ => (false, [.apiDemoClear])

/-- C6 counterexample: when the gateway enrollment call fails, the catch
branch returns false without triggering any re-fetch — the interaction list of
the failed call contains no `fetchAll`, contradicting the claim that a full
re-fetch is triggered unconditionally after the gateway call. -/
theorem c6_counterexample :
    (enroll "T-A1B2" "P-1001" (.error "API Error: 500")).2
        = [.apiEnroll "T-A1B2" "P-1001"]
      ∧ GatewayCall.fetchAll ∉ (enroll "T-A1B2" "P-1001" (.error "API Error: 500")).2 := by
  exact ⟨rfl, by decide⟩

/-- C6 (amended): every mutation action of the hook triggers the full
snapshot re-fetch exactly when its gateway call succeeds; when the gateway
call fails, the action returns false without re-fetching. -/
theorem c6_amended (trackId patientId cameraId personType direction : String)
    (r : Except String Unit) :
    (GatewayCall.fetchAll ∈ (enroll trackId patientId r).2 ↔ exceptOk r = true)
      ∧ (GatewayCall.fetchAll ∈ (updateVitals patientId direction r).2
          ↔ exceptOk r = true)
      ∧ (GatewayCall.fetchAll ∈ (addPerson cameraId personType r).2
          ↔ exceptOk r = true)
      ∧ (GatewayCall.fetchAll ∈ (setupDemo r).2 ↔ exceptOk r = true)
      ∧ (GatewayCall.fetchAll ∈ (clearAll r).2 ↔ exceptOk r = true) := by
  cases r <;>
    simp [enroll, updateVitals, addPerson, setupDemo, clearAll, exceptOk]

/-- The `handleEnroll` guard of `Sidebar.jsx`: the enrollment action is
invoked only when both selected ids are truthy (non-empty) strings; otherwise
nothing happens — no call is made, and no error result is surfaced either.
The returned value is the pair of ids passed to `onEnroll`, or `none` when the
guard skipped. -/
def sidebarHandleEnroll (selectedTrack selectedPatient : String) :
    Option (String × String) :=
  if selectedTrack != "" && selectedPatient != "" then
    some (selectedTrack, selectedPatient)
  else none

/-- C8 counterexample: calling the hook-level `enroll` with an empty track id
contacts the gateway first (the head of the interaction list is the enrollment
call carrying the empty id) and, when the gateway accepts it, returns plain
success — no ValidationError result exists and no rejection happens before the
network call. -/
theorem c8_counterexample :
    (enroll "" "P-1001" (.ok ())).1 = true
      ∧ (enroll "" "P-1001" (.ok ())).2.head? = some (.apiEnroll "" "P-1001") := by
  exact ⟨rfl, rfl⟩

/-- C8 (amended): emptiness of the ids is checked only by the Sidebar UI
guard, which silently skips the whole action (no gateway call, but also no
error result); the hook-level `enroll` itself performs no validation and its
first gateway interaction is always the enrollment call with the given ids. -/
theorem c8_amended (t p : String) (r : Except String Unit) :
    (sidebarHandleEnroll t p = none ↔ (t = "" ∨ p = ""))
      ∧ (enroll t p r).2.head? = some (.apiEnroll t p) := by
  constructor
  · unfold sidebarHandleEnroll
    by_cases h1 : t = "" <;> by_cases h2 : p = "" <;> simp [h1, h2]
  · cases r <;> rfl

/-- The critical-alert join of `CriticalAlert.jsx`: the high-band patients
that appear among the tracked people, each paired with the first tracked
record carrying their id. -/
def criticalLocated (patients : List Patient)
    (trackedPeople : List TrackedPerson) :
    List (Patient × Option TrackedPerson) :=
  ((patients.filter (fun p => p.risk_level == "high")).filter
      (fun p => trackedPeople.any (fun t => t.patient_id == some p.patient_id))).map
    (fun patient =>
      (patient, trackedPeople.find? (fun t => t.patient_id == some patient.patient_id)))

/-- C9: a tracked entity whose linked subject id matches no patient record in
the snapshot (a dangling reference) is treated as unlinked by every derivation
without failing: subject resolution yields `none`, the dot colour and size
fall back to their kind-based defaults, and the critical-alert join is
unchanged by the entity's presence. -/
theorem c9_dangling_defaults (patients : List Patient)
    (ts : List TrackedPerson) (e : TrackedPerson) (s : String)
    (hlink : e.patient_id = some s) (hs : s ≠ "")
    (h : ∀ p ∈ patients, p.patient_id ≠ s) :
    getPatientInfo patients e = none
      ∧ getDotColor patients e
          = (if e.person_type == "staff" then "#3b82f6" else "#64748b")
      ∧ getDotSize patients e = 12
      ∧ criticalLocated patients (e :: ts) = criticalLocated patients ts := by
  have hinfo : getPatientInfo patients e = none := by
    unfold getPatientInfo
    rw [hlink]
    rw [if_neg (by simp [truthyId, hs])]
    rw [List.find?_eq_none]
    intro p hp
    simp [h p hp]
  have hfilters : ∀ p ∈ patients.filter (fun p => p.risk_level == "high"),
      ((e :: ts).any (fun t => t.patient_id == some p.patient_id))
        = (ts.any (fun t => t.patient_id == some p.patient_id)) := by
    intro p hp
    have hne := h p (List.mem_of_mem_filter hp)
    simp [List.any_cons, hlink, Ne.symm hne]
  have hfind : ∀ p ∈ (patients.filter (fun p => p.risk_level == "high")).filter
        (fun p => ts.any (fun t => t.patient_id == some p.patient_id)),
      ((e :: ts).find? (fun t => t.patient_id == some p.patient_id))
        = ts.find? (fun t => t.patient_id == some p.patient_id) := by
    intro p hp
    have hne := h p (List.mem_of_mem_filter (List.mem_of_mem_filter hp))
    have hfalse : (e.patient_id == some p.patient_id) = false := by
      simp [hlink, Ne.symm hne]
    rw [List.find?_cons, hfalse]
  refine ⟨hinfo, ?_, ?_, ?_⟩
  · unfold getDotColor
    rw [hinfo]
  · unfold getDotSize
    rw [hinfo]
  · unfold criticalLocated
    rw [List.filter_congr hfilters]
    exact List.map_congr_left (fun p hp => by rw [hfind p hp])

/-- A tracked entity whose enrollment link dangles: no fallback patient
carries the id `P-9999`. -/
def danglingTracked : TrackedPerson :=
  { track_id := "T-DGL1", patient_id := some "P-9999",
    position := { x := 1, y := 1 }, person_type := "patient" }

/-- C9 witness: the theorem applied to the dangling entity over the fallback
patients. -/
theorem c9_dangling_defaults_witness :
    getPatientInfo mockPatients danglingTracked = none
      ∧ getDotSize mockPatients danglingTracked = 12 :=
  ⟨(c9_dangling_defaults mockPatients mockTrackedPeople danglingTracked
      "P-9999" rfl (by decide) (by decide)).1,
   (c9_dangling_defaults mockPatients mockTrackedPeople danglingTracked
      "P-9999" rfl (by decide) (by decide)).2.2.1⟩

/-- The polling engine's state: the hook state plus the number of `fetchData`
invocations currently in flight.  `useAegisData.js` carries no in-flight flag
of any kind among its state variables, so the count is purely a bookkeeping
device of the model. -/
structure EngineState where
  hook : HookState
  pending : Nat
deriving DecidableEq

/-- The engine's initial state: the hook initialisers, nothing in flight. -/
def engineInit : EngineState :=
  { hook := initialHookState, pending := 0 }

/-- A poll tick, from `useAegisData.js`: `setInterval(fetchData, ms)` invokes
`fetchData` on every tick, and the body of `fetchData` issues its
`Promise.all` immediately, consulting no guard — so every tick puts one more
fetch in flight, whatever is already pending. -/
def engineTick (s : EngineState) : EngineState :=
  { s with pending := s.pending + 1 }

/-- Completion of one in-flight fetch with the given read outcomes: the
continuation after `Promise.all` applies `fetchData`'s state updates for that
one result set, all fields together. -/
def engineComplete (s : EngineState) (pRes : Except String (List Patient))
    (tRes : Except String (List RawTracked)) (stRes : Except String Stats)
    (fpRes : Except String FloorPlan) : EngineState :=
  if s.pending = 0 then s
  else { hook := fetchData s.hook pRes tRes stRes fpRes,
         pending := s.pending - 1 }

/-- C10 counterexample: after one tick a fetch is in flight, and a second
tick arriving before any completion starts a second concurrent fetch — the
code has no in-flight guard, so ticks are never ignored and reentrancy is not
prevented. -/
theorem c10_counterexample :
    (engineTick engineInit).pending = 1
      ∧ (engineTick (engineTick engineInit)).pending = 2 := by
  exact ⟨rfl, rfl⟩

/-- C10 (amended): the tick handler starts one more fetch unconditionally
(there is no in-flight guard), so overlapping fetches do occur; what does
hold is that each completion publishes the whole snapshot of its own result
set at once, by one application of `fetchData`. -/
theorem c10_amended :
    (∀ s : EngineState, (engineTick s).pending = s.pending + 1)
      ∧ (∀ (s : EngineState) (pRes : Except String (List Patient))
            (tRes : Except String (List RawTracked))
            (stRes : Except String Stats) (fpRes : Except String FloorPlan),
          0 < s.pending →
            engineComplete s pRes tRes stRes fpRes
              = { hook := fetchData s.hook pRes tRes stRes fpRes,
                  pending := s.pending - 1 }) := by
  constructor
  · intro s
    rfl
  · intro s pRes tRes stRes fpRes hp
    unfold engineComplete
    rw [if_neg (by omega)]

/-- C10 witness: the amended theorem applied with one fetch in flight. -/
theorem c10_amended_witness :
    0 < (engineTick engineInit).pending
      ∧ engineComplete (engineTick engineInit) (.ok mockPatients) (.ok [])
          (.ok mockStats) (.error "API Error: 500")
        = { hook := fetchData initialHookState (.ok mockPatients) (.ok [])
              (.ok mockStats) (.error "API Error: 500"),
            pending := 0 } :=
  ⟨by decide,
   c10_amended.2 (engineTick engineInit) (.ok mockPatients) (.ok [])
     (.ok mockStats) (.error "API Error: 500") (by decide)⟩
